import Mathlib

/-!
# Verification of the Disney data proxy's acquisition and resilience core

Shallow embedding of the multi-source data-acquisition layer of the proxy
server (`server.js`, v3.1 snapshot, with the v3.2 `fetchWithRetry` variant and
the v1.0 `classifyEntertainment` helper).  Impure ingredients are made
explicit:

* network I/O is an oracle parameter (`Option HttpResp`, `none` meaning the
  HTTP client threw without a response);
* every string derived from `new Date()` is abstracted by a `now : String`
  parameter;
* the process-wide mutable singletons (`dataState`, the per-domain caches) are
  threaded as explicit state.
-/

/-- JavaScript `String.prototype.includes` on exploded strings. -/
def hasSubList (hay pat : List Char) : Bool :=
  match hay with
  | [] => pat.isEmpty
  | _ :: t => pat.isPrefixOf hay || hasSubList t pat

/-- JavaScript `s.includes(pat)`. -/
def strHas (s pat : String) : Bool :=
  hasSubList s.toList pat.toList

/-- JavaScript `s.toLowerCase()` (character-wise lowering; kernel-reducible
counterpart of `String.toLower`). -/
def strToLower (s : String) : String :=
  ⟨s.toList.map Char.toLower⟩

-- ========== PARK TABLES (server.js v3.1) ==========

/-- Embeds `validParks` (server.js:100). -/
def validParks : List String :=
  ["magic-kingdom", "epcot", "hollywood-studios", "animal-kingdom"]

/-- The `validatePark` middleware (server.js:102-114): `true` when the request
may proceed, `false` when it is rejected with HTTP 400 before any
acquisition. -/
def validatePark (park : String) : Bool :=
  validParks.contains park

/-- The lookup table inside `getParkId` (server.js:810-818). -/
def parkIdTable : List (String × Nat) :=
  [("magic-kingdom", 6), ("epcot", 5), ("hollywood-studios", 7), ("animal-kingdom", 8)]

/-- Embeds `getParkId` (server.js:810-818): `ids[park] || 6`. -/
def getParkId (park : String) : Nat :=
  (parkIdTable.lookup park).getD 6

/-- The lookup table inside `getThemeParksWikiId` (server.js:1918-1926,
v3.2 snapshot). -/
def themeParksWikiIdTable : List (String × String) :=
  [("magic-kingdom", "magickingdom"), ("epcot", "epcot"),
   ("hollywood-studios", "hollywoodstudios"), ("animal-kingdom", "animalkingdom")]

/-- Embeds `getThemeParksWikiId` (server.js:1918-1926): `ids[park] || 'magickingdom'`. -/
def getThemeParksWikiId (park : String) : String :=
  (themeParksWikiIdTable.lookup park).getD "magickingdom"

/-- Embeds `getSourceName` (server.js:804-808). -/
def getSourceName (url : String) : String :=
  if strHas url "touringplans" then "touringplans"
  else if strHas url "queue-times" then "queue_times"
  else "unknown"

-- ========== ENTERTAINMENT CLASSIFICATION (part_000:483-489) ==========

/-- Embeds `classifyEntertainment` (unnamed source file, lines 483-489). -/
def classifyEntertainment (name : String) : String :=
  let lowerName := strToLower name
  if strHas lowerName "parade" then "parade"
  else if strHas lowerName "fireworks" || strHas lowerName "spectacular" then "fireworks"
  else if strHas lowerName "meet" || strHas lowerName "character" then "character"
  else "show"

example : classifyEntertainment "Festival of Fantasy Parade" = "parade" := by decide
example : classifyEntertainment "Happily Ever After" = "show" := by decide
example : classifyEntertainment "Mickey Mouse Meet & Greet" = "character" := by decide
example : classifyEntertainment "Country Bear Jamboree" = "show" := by decide

-- ========== WAIT-TIMES RAW DATA & NORMALIZER (server.js v3.1) ==========

/-- A raw ride record in the queue-times payload (`lands[].rides[]`); optional
fields model absent/falsy JSON members. -/
structure Ride where
  id : Nat
  name : String
  wait_time : Option Nat
  is_open : Option Bool
  fast_pass : Option Bool
  last_updated : Option String
deriving DecidableEq, Repr

/-- A raw land record in the queue-times payload. -/
structure Land where
  name : String
  rides : List Ride
deriving DecidableEq, Repr

/-- A raw upstream response body, as seen after JSON parsing.  `obj none`
is an object without a `lands` array; `str` a string body; `null` stands for
`null`/`undefined`/other falsy bodies. -/
inductive WTRaw where
  | obj (lands : Option (List Land))
  | str (s : String)
  | null
deriving DecidableEq, Repr

/-- JavaScript truthiness of a response body (`if (response.data)`). -/
def WTRaw.isTruthy : WTRaw → Bool
  | .obj _ => true
  | .str s => !(s == "")
  | .null => false

/-- A canonical attraction record (server.js:736-744).  The fallback table's
records omit `hasLightningLane`/`lastUpdated`, hence the `Option`s. -/
structure Attraction where
  id : String
  name : String
  land : String
  waitTime : Nat
  isOpen : Bool
  hasLightningLane : Option Bool
  lastUpdated : Option String
deriving DecidableEq, Repr

/-- The per-ride body of `parseWaitTimesData` (server.js:735-744); `now`
abstracts `new Date().toISOString()`. -/
def rideToAttraction (park now landName : String) (ride : Ride) : Attraction :=
  { id := park ++ "-" ++ toString ride.id
    name := ride.name
    land := landName
    waitTime := ride.wait_time.getD 0
    isOpen := ride.is_open.getD false
    hasLightningLane := some (ride.fast_pass.getD false)
    lastUpdated := some (ride.last_updated.getD now) }

/-- Embeds `parseWaitTimesData` (server.js:728-755, v3.1): walks `data.lands[].rides[]`
when present and returns `[]` for every other shape. -/
def parseWaitTimesData (data : WTRaw) (park now : String) : List Attraction :=
  match data with
  | .obj (some lands) =>
      lands.flatMap (fun land => land.rides.map (rideToAttraction park now land.name))
  | _ => []

-- ========== HTTP CLIENT WRAPPER (server.js v3.1/v3.2) ==========

/-- An HTTP response delivered to the process (status plus parsed body). -/
structure HttpResp where
  status : Nat
  data : WTRaw
deriving DecidableEq, Repr

/-- One attempt of the v3.1 `fetchWithRetry` (server.js:117-148) applied to a
delivered response.  The `axios.get` call uses the default `validateStatus`,
which rejects every status outside 2xx before user code runs; the function
itself then only checks `if (response.data)`. -/
def fetchAttempt (r : HttpResp) : Except String HttpResp :=
  if r.status < 200 ∨ 300 ≤ r.status then .error "Request failed with bad status"
  else if r.data.isTruthy then .ok r
  else .error "No data received"

/-- One attempt of the v3.2 `fetchWithRetry` (server.js:1128-1169): same axios
gate, then the explicit `if (response.status !== 200) throw`, then the body
check. -/
def fetchAttemptV32 (r : HttpResp) : Except String HttpResp :=
  if r.status < 200 ∨ 300 ≤ r.status then .error "Request failed with bad status"
  else if r.status ≠ 200 then .error "HTTP non-200 response"
  else if r.data.isTruthy then .ok r
  else .error "No data received"

/-- Outcome of one network attempt: `none` models the HTTP client throwing
without a response (timeout, connection error). -/
def attemptResult (o : Option HttpResp) : Except String HttpResp :=
  match o with
  | none => .error "Network Error"
  | some r => fetchAttempt r

/-- v3.2 variant of `attemptResult`. -/
def attemptResultV32 (o : Option HttpResp) : Except String HttpResp :=
  match o with
  | none => .error "Network Error"
  | some r => fetchAttemptV32 r

/-- Embeds `fetchWithRetry(url, options, retries)` (server.js:117-148, v3.1): the
network is the oracle `net` (attempt index ↦ delivered response or client
throw); on failure with retries remaining, sleep and recurse with
`retries - 1`; otherwise propagate the last error. -/
def fetchWithRetry (net : Nat → Option HttpResp) (k retries : Nat) :
    Except String HttpResp :=
  match attemptResult (net k) with
  | .ok r => .ok r
  | .error e =>
    match retries with
    | 0 => .error e
    | n + 1 => fetchWithRetry net (k + 1) n

/-- Embeds `fetchWithRetry` (server.js:1128-1169, v3.2 snapshot). -/
def fetchWithRetryV32 (net : Nat → Option HttpResp) (k retries : Nat) :
    Except String HttpResp :=
  match attemptResultV32 (net k) with
  | .ok r => .ok r
  | .error e =>
    match retries with
    | 0 => .error e
    | n + 1 => fetchWithRetryV32 net (k + 1) n

-- ========== DATA STATE (server.js:69-80) ==========

/-- The process-wide `dataState` singleton: per-domain last-successful-fetch
timestamp (nullable) and consecutive-error counter. -/
structure DataState where
  lastSuccessfulFetchParkHours : Option String
  lastSuccessfulFetchEntertainment : Option String
  lastSuccessfulFetchWaitTimes : Option String
  errorCountsParkHours : Nat
  errorCountsEntertainment : Nat
  errorCountsWaitTimes : Nat
deriving DecidableEq, Repr

/-- Value of `dataState` at process start. -/
def initialDataState : DataState :=
  { lastSuccessfulFetchParkHours := none
    lastSuccessfulFetchEntertainment := none
    lastSuccessfulFetchWaitTimes := none
    errorCountsParkHours := 0
    errorCountsEntertainment := 0
    errorCountsWaitTimes := 0 }

-- ========== WAIT-TIMES CIRCUIT BREAKER (server.js:158-209, v3.1) ==========

/-- One entry of the `sources` array built inside the breaker's wrapped
function (server.js:160-171). -/
structure WTSource where
  url : String
  priority : Nat
  timeout : Nat
deriving DecidableEq, Repr

/-- The two registered wait-times sources for a park (server.js:160-171). -/
def waitTimesSources (park : String) : List WTSource :=
  [ { url := "https://queue-times.com/parks/" ++ toString (getParkId park) ++ "/queue_times.json"
      priority := 1
      timeout := 3000 },
    { url := "https://touringplans.com/" ++ park ++ "/wait-times.json"
      priority := 2
      timeout := 5000 } ]

/-- Stable insertion step for `sortByPriority`. -/
def insertByPriority (s : WTSource) : List WTSource → List WTSource
  | [] => [s]
  | t :: ts => if s.priority ≤ t.priority then s :: t :: ts else t :: insertByPriority s ts

/-- Embeds `sources.sort((a, b) => a.priority - b.priority)` (server.js:174): a stable
ascending sort on the priority field. -/
def sortByPriority (l : List WTSource) : List WTSource :=
  l.foldr insertByPriority []

/-- The Result object built on a successful source (server.js:187-193). -/
structure WTResult where
  park : String
  attractions : List Attraction
  source : String
  lastUpdated : String
  freshnessScore : Option Nat
deriving DecidableEq, Repr

/-- The `for (const { url } of sources)` loop of the breaker's wrapped
function (server.js:176-200): per source, `fetchWithRetry(url, ..., 1)`; on
success record the timestamp, zero the error counter and return the
normalized Result with `freshnessScore: 100`; on failure bump the error
counter and continue; when the list is exhausted, throw.  `net i j` is the
response to attempt `j` against source `i`. -/
def tryWaitTimesSources (net : Nat → Nat → Option HttpResp) (park now : String) :
    List WTSource → Nat → DataState → Except String WTResult × DataState
  | [], _, st => (.error "All wait time sources failed", st)
  | s :: rest, i, st =>
    match fetchWithRetry (net i) 0 1 with
    | .ok r =>
        (.ok { park := park
               attractions := parseWaitTimesData r.data park now
               source := getSourceName s.url
               lastUpdated := now
               freshnessScore := some 100 },
         { st with lastSuccessfulFetchWaitTimes := some now, errorCountsWaitTimes := 0 })
    | .error _ =>
        tryWaitTimesSources net park now rest (i + 1)
          { st with errorCountsWaitTimes := st.errorCountsWaitTimes + 1 }

/-- The breaker's wrapped function (server.js:158-203). -/
def waitTimesWrapped (net : Nat → Nat → Option HttpResp) (park now : String)
    (st : DataState) : Except String WTResult × DataState :=
  tryWaitTimesSources net park now (sortByPriority (waitTimesSources park)) 0 st

-- ========== FALLBACK DATA (server.js:934-956, v3.1) ==========

/-- The literal fallback attraction table (server.js:935-949).  These records
carry no `hasLightningLane`/`lastUpdated` fields. -/
def fallbackWaitTimesTable : List (String × List Attraction) :=
  [ ("magic-kingdom",
      [ { id := "mk-space-mountain", name := "Space Mountain", land := "Tomorrowland",
          waitTime := 45, isOpen := true, hasLightningLane := none, lastUpdated := none },
        { id := "mk-pirates", name := "Pirates", land := "Adventureland",
          waitTime := 25, isOpen := true, hasLightningLane := none, lastUpdated := none } ]),
    ("epcot",
      [ { id := "ep-guardians", name := "Guardians", land := "Future World",
          waitTime := 85, isOpen := true, hasLightningLane := none, lastUpdated := none } ]),
    ("hollywood-studios",
      [ { id := "hs-rise", name := "Rise of Resistance", land := "Galaxy's Edge",
          waitTime := 120, isOpen := true, hasLightningLane := none, lastUpdated := none } ]),
    ("animal-kingdom",
      [ { id := "ak-avatar", name := "Flight of Passage", land := "Pandora",
          waitTime := 90, isOpen := true, hasLightningLane := none, lastUpdated := none } ]) ]

/-- Embeds `getFallbackWaitTimes` (server.js:934-956): `fallbacks[park] || []`,
tagged `source: 'fallback'`.  The returned object has no `freshnessScore`
member. -/
def getFallbackWaitTimes (park now : String) : WTResult :=
  { park := park
    attractions := (fallbackWaitTimesTable.lookup park).getD []
    source := "fallback"
    lastUpdated := now
    freshnessScore := none }

/-- Embeds `waitTimesBreaker.fire(park, ...)` together with its registered fallback
(server.js:206-209): when the breaker is OPEN the wrapped function is not
invoked at all; otherwise its failure resolves to the fallback. -/
def waitTimesAcquire (breakerOpen : Bool) (net : Nat → Nat → Option HttpResp)
    (park now : String) (st : DataState) : WTResult × DataState :=
  if breakerOpen then (getFallbackWaitTimes park now, st)
  else
    match waitTimesWrapped net park now st with
    | (.ok r, st') => (r, st')
    | (.error _, st') => (getFallbackWaitTimes park now, st')

-- ========== PER-DOMAIN CACHE (NodeCache, server.js:62-66) ==========

/-- A NodeCache store within its TTL window: an association list keyed by
`{domain}_{parkId}`. -/
def cacheGet {α : Type} (c : List (String × α)) (k : String) : Option α :=
  c.lookup k

/-- Embeds `cache.set(key, value)`: unconditional overwrite. -/
def cacheSet {α : Type} (c : List (String × α)) (k : String) (v : α) :
    List (String × α) :=
  (k, v) :: c.filter (fun p => p.1 ≠ k)

/-- The body a route sends back: the (possibly cached) payload plus the
`fromCache` indicator merged in by the handler. -/
structure RouteResp (α : Type) where
  payload : α
  fromCache : Bool
deriving DecidableEq, Repr

/-- The wait-times route handler (server.js:307-357): cache hit short-circuits;
otherwise fire the breaker and cache whatever Result it produced (the breaker
with its fallback always yields a truthy object, so `if (waitTimesData)` is
taken). -/
def waitTimesRoute (breakerOpen : Bool) (net : Nat → Nat → Option HttpResp)
    (park now : String) (cache : List (String × WTResult)) (st : DataState) :
    RouteResp WTResult × List (String × WTResult) × DataState :=
  let cacheKey := "wait_times_" ++ park
  match cacheGet cache cacheKey with
  | some cached => ({ payload := cached, fromCache := true }, cache, st)
  | none =>
    let acq := waitTimesAcquire breakerOpen net park now st
    ({ payload := acq.1, fromCache := false },
     cacheSet cache cacheKey acq.1, acq.2)

-- ========== LIVE PARK HOURS (server.js:757-802, v3.1) ==========

/-- A raw day record of the queue-times `calendar.json` payload. -/
structure DayRaw where
  date : String
  opening_time : String
  closing_time : String
  dayType : Option String
  special : Bool
deriving DecidableEq, Repr

/-- A canonical park-hours entry (server.js:787-793). -/
structure HoursEntry where
  date : String
  openingTime : String
  closingTime : String
  dayType : String
  specialHours : Option String
deriving DecidableEq, Repr

/-- The park-hours Result object (server.js:795-801). -/
structure HoursResult where
  park : String
  hours : List HoursEntry
  source : String
  dataQuality : Option String
  lastUpdated : String
deriving DecidableEq, Repr

/-- Embeds `parseHoursData` (server.js:785-802, v3.1): keep the first 7 days. -/
def parseHoursData (data : List DayRaw) (park now : String) : HoursResult :=
  { park := park
    hours := (data.take 7).map (fun day =>
      { date := day.date
        openingTime := day.opening_time
        closingTime := day.closing_time
        dayType := day.dayType.getD "Operating"
        specialHours := if day.special then some "Special Hours" else none })
    source := "queue_times"
    dataQuality := some "live"
    lastUpdated := now }

/-- Embeds `fetchLiveParkHours` (server.js:758-783, v3.1): one axios call whose
outcome is the oracle `net` (`none` = thrown/unreachable); a non-empty array
is parsed, anything else resolves to `null`. -/
def fetchLiveParkHours (net : Option (List DayRaw)) (park now : String) :
    Option HoursResult :=
  match net with
  | some data => if data.length > 0 then some (parseHoursData data park now) else none
  | none => none

/-- Embeds `getStaticParkHours` (server.js:821-836, v3.1); `now` abstracts the
date string. -/
def getStaticParkHours (park now : String) : HoursResult :=
  { park := park
    hours := [
      { date := now
        openingTime := if park = "animal-kingdom" then "08:00" else "09:00"
        closingTime := if park = "magic-kingdom" then "23:00" else "21:00"
        dayType := "Operating"
        specialHours := none } ]
    source := "fallback"
    dataQuality := none
    lastUpdated := now }

/-- The park-hours route handler (server.js:239-304): cache hit
short-circuits; a live result is cached and stamps
`dataState.lastSuccessfulFetch.parkHours`; a `null` live result falls back to
the static hours without touching the cache or `dataState`.  No branch
modifies `errorCounts.parkHours`. -/
def parkHoursRoute (net : Option (List DayRaw)) (park now : String)
    (cache : List (String × HoursResult)) (st : DataState) :
    RouteResp HoursResult × List (String × HoursResult) × DataState :=
  let cacheKey := "park_hours_" ++ park
  match cacheGet cache cacheKey with
  | some cached => ({ payload := cached, fromCache := true }, cache, st)
  | none =>
    match fetchLiveParkHours net park now with
    | some liveHoursData =>
        ({ payload := liveHoursData, fromCache := false },
         cacheSet cache cacheKey liveHoursData,
         { st with lastSuccessfulFetchParkHours := some now })
    | none =>
        ({ payload := getStaticParkHours park now, fromCache := false }, cache, st)

-- ========== ENTERTAINMENT RECORDS (server.js v3.1) ==========

/-- A canonical entertainment record (static character meets, scraped
characters, fallback shows).  `characters` is `[]` where the source object
has no such field. -/
structure EntItem where
  id : String
  name : String
  type : String
  times : List String
  location : String
  characters : List String
  duration : Option Nat
  source : Option String
deriving DecidableEq, Repr

/-- The projection used for `characterMeetData` (server.js:411-421). -/
structure CharacterMeetView where
  id : String
  name : String
  type : String
  times : List String
  location : String
  characters : List String
  duration : Option Nat
deriving DecidableEq, Repr

/-- Table of `getStaticCharacterMeets` (server.js:839-931): the literal curated table,
`characterMeets[park] || []`. -/
def staticCharacterMeetsTable : List (String × List EntItem) :=
  [ ("magic-kingdom",
      [ { id := "princess_fairytale_hall", name := "Princess Fairytale Hall",
          type := "character_meet", times := ["9:00 AM - Park Close"],
          location := "Fantasyland",
          characters := ["Cinderella", "Elena", "Tiana", "Rapunzel"],
          duration := some 15, source := some "static" },
        { id := "town_square_theater_mickey", name := "Mickey Mouse Meet",
          type := "character_meet", times := ["9:00 AM - Park Close"],
          location := "Town Square Theater", characters := ["Mickey Mouse"],
          duration := some 15, source := some "static" },
        { id := "petes_silly_sideshow", name := "Pete's Silly Sideshow",
          type := "character_meet", times := ["10:00 AM - 6:00 PM"],
          location := "Storybook Circus",
          characters := ["Goofy", "Donald", "Minnie", "Daisy"],
          duration := some 15, source := some "static" },
        { id := "tinker_bell_nook", name := "Tinker Bell's Magical Nook",
          type := "character_meet", times := ["9:00 AM - 5:00 PM"],
          location := "Main Street, USA", characters := ["Tinker Bell"],
          duration := some 15, source := some "static" },
        { id := "enchanted_tales_belle", name := "Enchanted Tales with Belle",
          type := "character_meet", times := ["10:00 AM - 8:00 PM"],
          location := "Fantasyland", characters := ["Belle"],
          duration := some 20, source := some "static" } ]),
    ("epcot",
      [ { id := "epcot_character_spot", name := "Character Spot",
          type := "character_meet", times := ["11:00 AM - 5:00 PM"],
          location := "Future World", characters := ["Mickey", "Minnie", "Goofy"],
          duration := some 15, source := some "static" } ]),
    ("hollywood-studios",
      [ { id := "red_carpet_dreams", name := "Red Carpet Dreams",
          type := "character_meet", times := ["9:30 AM - 7:00 PM"],
          location := "Commissary Lane", characters := ["Mickey", "Minnie"],
          duration := some 15, source := some "static" } ]),
    ("animal-kingdom",
      [ { id := "adventure_outpost", name := "Adventure Outpost",
          type := "character_meet", times := ["10:00 AM - 4:30 PM"],
          location := "Discovery Island", characters := ["Mickey", "Minnie"],
          duration := some 15, source := some "static" } ]) ]

/-- Embeds `getStaticCharacterMeets(park)` (server.js:839-931). -/
def getStaticCharacterMeets (park : String) : List EntItem :=
  (staticCharacterMeetsTable.lookup park).getD []

/-- The entertainment Result payload of `getFallbackEntertainment`
(server.js:958-975, v3.1): one generic parade for every park. -/
def getFallbackEntertainmentList (park : String) : List EntItem :=
  [ { id := "parade_fallback", name := "Parade", type := "parade",
      times := ["3:00 PM"], location := "Main Street", characters := [],
      duration := some 20, source := some "fallback" } ]

/-- Embeds `fetchEntertainmentData` (server.js:978-981): a stub that always resolves
to `null`. -/
def fetchEntertainmentData (park : String) : Option (List EntItem) :=
  none

-- ========== CHARACTER SCRAPER (server.js:638-725) ==========

/-- One `.character-card` / `.character-schedule` element as cheerio exposes
it (all text already `.trim()`-med). -/
structure Card where
  name : String
  location : String
  timeSlots : List String
deriving DecidableEq, Repr

/-- One `.character-schedule-container` element: its `h2, h3` heading text
and its cards. -/
structure Container where
  heading : String
  cards : List Card
deriving DecidableEq, Repr

/-- The scraper's network outcome: HTTP status, raw body text (for the
`includes('Access Denied')` check) and the parsed container view of the
body. -/
structure ScrapeResp where
  status : Nat
  bodyText : String
  containers : List Container
deriving DecidableEq, Repr

/-- Returns `true` on word characters (`\w` of the `/\W+/g` regex). -/
def isWordChar (c : Char) : Bool :=
  c.isAlpha || c.isDigit || c = '_'

/-- Body of `name.replace(/\W+/g, '_')` followed by `.toLowerCase()`:
each maximal run of non-word characters collapses to one `_`. -/
def sanitizeIdGo : List Char → Bool → List Char
  | [], _ => []
  | c :: cs, inRun =>
    if isWordChar c then c.toLower :: sanitizeIdGo cs false
    else if inRun then sanitizeIdGo cs true
    else '_' :: sanitizeIdGo cs true

/-- Embeds `name.replace(/\W+/g, '_').toLowerCase()` (server.js:705). -/
def sanitizeId (s : String) : String :=
  ⟨sanitizeIdGo s.toList false⟩

/-- The card loop body (server.js:693-715): skip nameless cards, default the
times to `['Check Times']` and the location to `'Magic Kingdom'`. -/
def cardToCharacter (card : Card) : Option EntItem :=
  if card.name = "" then none
  else
    let times := card.timeSlots.filter (fun t => t ≠ "")
    some { id := "live_" ++ sanitizeId card.name
           name := card.name
           type := "character_meet"
           times := if times.isEmpty then ["Check Times"] else times
           location := if card.location = "" then "Magic Kingdom" else card.location
           characters := [card.name]
           duration := some 20
           source := some "theme_park_iq" }

/-- The container loop (server.js:689-716): only containers whose heading
mentions Magic Kingdom contribute. -/
def extractCharacters (containers : List Container) : List EntItem :=
  (containers.filter (fun c => strHas (strToLower c.heading) "magic kingdom")).flatMap
    (fun c => c.cards.filterMap cardToCharacter)

/-- Embeds `scrapeThemeParkIQCharacters` (server.js:638-725, identical in the v3.2
snapshot at 1675-1757): parks other than `'magic-kingdom'` return
`{ characters: [] }` before any request is issued; the request resolves every
status (`validateStatus: () => true`); 403/429, an `'Access Denied'` body and
any other non-200 status all throw into the surrounding catch, which returns
`{ characters: [] }`.  `net = none` models the axios call itself throwing. -/
def scrapeThemeParkIQCharacters (park : String) (net : Option ScrapeResp) :
    List EntItem :=
  if park ≠ "magic-kingdom" then []
  else
    match net with
    | none => []
    | some r =>
      if r.status = 403 then []
      else if r.status = 429 then []
      else if strHas r.bodyText "Access Denied" then []
      else if r.status ≠ 200 then []
      else extractCharacters r.containers

-- ========== ENTERTAINMENT AGGREGATION (server.js:360-458) ==========

/-- One step of the `new Map(list.map(item => [item.id, item]))` construction:
a later item with an existing key overwrites the stored value in place
(JavaScript Map keeps the original insertion position); a new key is appended. -/
def insertEntry (acc : List EntItem) (e : EntItem) : List EntItem :=
  if acc.any (fun a => a.id == e.id) then
    acc.map (fun a => if a.id == e.id then e else a)
  else
    acc ++ [e]

/-- Embeds `[...new Map(list.map(item => [item.id, item])).values()]`
(server.js:403-404): deduplicate by `id`, last write wins, first-insertion
order. -/
def dedupById (l : List EntItem) : List EntItem :=
  l.foldl insertEntry []

/-- The entertainment Result object (server.js:423-435). -/
structure EntResult where
  park : String
  entertainment : List EntItem
  characterMeets : List CharacterMeetView
  sourcesBase : String
  sourcesCharacters : String
  sourcesStaticCount : Nat
  totalItems : Nat
  lastUpdated : String
deriving DecidableEq, Repr

/-- The entertainment route handler (server.js:360-458): cache hit
short-circuits; otherwise concatenate the static character meets, the base
entertainment fetch (a stub resolving to `null`) and the scraped characters,
deduplicate by id, substitute the fallback list if empty, project the
character meets, cache the Result and stamp
`dataState.lastSuccessfulFetch.entertainment`.  No branch modifies
`errorCounts.entertainment`. -/
def entertainmentRoute (scrapeNet : Option ScrapeResp) (park now : String)
    (cache : List (String × EntResult)) (st : DataState) :
    RouteResp EntResult × List (String × EntResult) × DataState :=
  let cacheKey := "entertainment_" ++ park
  match cacheGet cache cacheKey with
  | some cached => ({ payload := cached, fromCache := true }, cache, st)
  | none =>
    let staticCharacterMeets := getStaticCharacterMeets park
    let baseEntertainment := fetchEntertainmentData park
    let characterData := scrapeThemeParkIQCharacters park scrapeNet
    let allEntertainment :=
      staticCharacterMeets ++ (baseEntertainment.getD []) ++ characterData
    let uniqueEntertainment := dedupById allEntertainment
    let uniqueEntertainment :=
      if uniqueEntertainment.isEmpty then
        uniqueEntertainment ++ getFallbackEntertainmentList park
      else uniqueEntertainment
    let characterMeetData :=
      (uniqueEntertainment.filter (fun item => item.type == "character_meet")).map
        (fun meet =>
          { id := meet.id, name := meet.name, type := meet.type,
            times := meet.times, location := meet.location,
            characters := meet.characters, duration := meet.duration :
            CharacterMeetView })
    let result : EntResult :=
      { park := park
        entertainment := uniqueEntertainment
        characterMeets := characterMeetData
        sourcesBase := "fallback"
        sourcesCharacters := if characterData.length > 0 then "theme_park_iq" else "static"
        sourcesStaticCount := staticCharacterMeets.length
        totalItems := uniqueEntertainment.length
        lastUpdated := now }
    ({ payload := result, fromCache := false },
     cacheSet cache cacheKey result,
     { st with lastSuccessfulFetchEntertainment := some now })

-- ========== C4: entertainment-name classification ==========

/-- C4 counterexample: the classification function maps
`"Happily Ever After"` to `"show"`, not `"fireworks"` (its lowercased name
contains neither `"fireworks"` nor `"spectacular"`), and
`"Mickey Mouse Meet & Greet"` to the string `"character"`, not
`"character_meet"`.  This refutes the claimed mapping. -/
theorem classifyEntertainment_claim_counterexample :
    classifyEntertainment "Happily Ever After" = "show" ∧
    "show" ≠ "fireworks" ∧
    classifyEntertainment "Mickey Mouse Meet & Greet" = "character" ∧
    "character" ≠ "character_meet" := by
  refine ⟨by decide, by decide, by decide, by decide⟩

/-- C4 (amended): `classifyEntertainment` maps
`"Festival of Fantasy Parade"` to `"parade"`, `"Happily Ever After"` to the
default `"show"`, `"Mickey Mouse Meet & Greet"` to `"character"`, and
`"Country Bear Jamboree"` to the default `"show"`. -/
theorem classifyEntertainment_mappings :
    classifyEntertainment "Festival of Fantasy Parade" = "parade" ∧
    classifyEntertainment "Happily Ever After" = "show" ∧
    classifyEntertainment "Mickey Mouse Meet & Greet" = "character" ∧
    classifyEntertainment "Country Bear Jamboree" = "show" := by
  refine ⟨by decide, by decide, by decide, by decide⟩

-- ========== C8: park-id lookup ==========

/-- C8 counterexample: `"epic-universe"` is not a supported park, yet
`getParkId` returns the default id `6` (Magic Kingdom) and
`getThemeParksWikiId` returns `"magickingdom"` instead of failing. -/
theorem getParkId_default_counterexample :
    "epic-universe" ∉ validParks ∧
    getParkId "epic-universe" = 6 ∧
    getThemeParksWikiId "epic-universe" = "magickingdom" := by
  refine ⟨by decide, by decide, by decide⟩

/-- C8 (amended): the park-name lookups do not fail closed — for every
unrecognized park identifier they fall back to the Magic Kingdom ids
(`ids[park] || 6`, `ids[park] || 'magickingdom'`); rejection of invalid park
names happens earlier, in the `validatePark` middleware, which refuses every
identifier outside the four supported parks. -/
theorem getParkId_defaults_unknown (park : String) (h : park ∉ validParks) :
    getParkId park = 6 ∧
    getThemeParksWikiId park = "magickingdom" ∧
    validatePark park = false := by
  simp only [validParks, List.mem_cons, List.not_mem_nil, or_false, not_or] at h
  obtain ⟨h1, h2, h3, h4⟩ := h
  have e1 : (park == "magic-kingdom") = false := beq_eq_false_iff_ne.mpr h1
  have e2 : (park == "epcot") = false := beq_eq_false_iff_ne.mpr h2
  have e3 : (park == "hollywood-studios") = false := beq_eq_false_iff_ne.mpr h3
  have e4 : (park == "animal-kingdom") = false := beq_eq_false_iff_ne.mpr h4
  refine ⟨?_, ?_, ?_⟩
  · simp [getParkId, parkIdTable, List.lookup, e1, e2, e3, e4]
  · simp [getThemeParksWikiId, themeParksWikiIdTable, List.lookup, e1, e2, e3, e4]
  · simp [validatePark, validParks, List.contains, h1, h2, h3, h4]

/-- Witness for C8's amended theorem at the concrete input
`"epic-universe"`. -/
theorem getParkId_defaults_unknown_witness :
    getParkId "epic-universe" = 6 ∧
    getThemeParksWikiId "epic-universe" = "magickingdom" ∧
    validatePark "epic-universe" = false :=
  getParkId_defaults_unknown "epic-universe" (by decide)

-- ========== C5: fetchWithRetry success criterion ==========

/-- C5 counterexample: in the v3.1 `fetchWithRetry` (server.js:117-148), a
response with HTTP status 201 and a non-empty body is treated as a success —
the axios call only rejects statuses outside 2xx, and the function itself
checks nothing but `if (response.data)` — so "success exactly when the status
is 200" fails there. -/
theorem fetchWithRetry_status201_counterexample :
    fetchWithRetry (fun _ => some { status := 201, data := .obj none }) 0 2 =
      .ok { status := 201, data := .obj none } ∧
    (201 : Nat) ≠ 200 := by
  constructor
  · rw [fetchWithRetry]
    rfl
  · decide

/-- C5 (amended): the v3.2 `fetchWithRetry` (server.js:1128-1169) treats an
attempt as a success exactly when the status is 200 and the body is non-empty
(truthy); the v3.1 snapshot (server.js:117-148) treats it as a success exactly
when the status is 2xx and the body is non-empty.  In both versions, a
successful attempt returns immediately, a failed attempt is retried while the
budget lasts (`retries - 1`), and with an exhausted budget the failure is
propagated. -/
theorem fetchWithRetry_success_criteria :
    (∀ r : HttpResp,
      (fetchAttemptV32 r).isOk = (decide (r.status = 200) && r.data.isTruthy)) ∧
    (∀ r : HttpResp,
      (fetchAttempt r).isOk =
        ((decide (200 ≤ r.status) && decide (r.status < 300)) && r.data.isTruthy)) ∧
    (∀ net k n, fetchWithRetryV32 net k (n + 1) =
      (match attemptResultV32 (net k) with
       | .ok r => .ok r
       | .error _ => fetchWithRetryV32 net (k + 1) n)) ∧
    (∀ net k, fetchWithRetryV32 net k 0 = attemptResultV32 (net k)) ∧
    (∀ net k n, fetchWithRetry net k (n + 1) =
      (match attemptResult (net k) with
       | .ok r => .ok r
       | .error _ => fetchWithRetry net (k + 1) n)) ∧
    (∀ net k, fetchWithRetry net k 0 = attemptResult (net k)) := by
  refine ⟨?_, ?_, ?_, ?_, ?_, ?_⟩
  · intro r
    by_cases h200 : r.status = 200
    · have h1 : ¬ (r.status < 200 ∨ 300 ≤ r.status) := by omega
      cases htr : r.data.isTruthy <;>
        simp [fetchAttemptV32, h1, h200, htr, Except.isOk, Except.toBool]
    · by_cases hg : r.status < 200 ∨ 300 ≤ r.status
      · simp [fetchAttemptV32, hg, h200, Except.isOk, Except.toBool]
      · simp [fetchAttemptV32, hg, h200, Except.isOk, Except.toBool]
  · intro r
    by_cases hg : r.status < 200 ∨ 300 ≤ r.status
    · have h1 : ¬ (200 ≤ r.status) ∨ ¬ (r.status < 300) := by omega
      rcases h1 with h1 | h1 <;>
        simp [fetchAttempt, hg, h1, Except.isOk, Except.toBool]
    · have h1 : 200 ≤ r.status := by omega
      have h2 : r.status < 300 := by omega
      cases htr : r.data.isTruthy <;>
        simp [fetchAttempt, hg, h1, h2, htr, Except.isOk, Except.toBool]
  · intro net k n
    rw [fetchWithRetryV32]
  · intro net k
    rw [fetchWithRetryV32]
    cases attemptResultV32 (net k) <;> rfl
  · intro net k n
    rw [fetchWithRetry]
  · intro net k
    rw [fetchWithRetry]
    cases attemptResult (net k) <;> rfl

-- ========== C6: normalizer totality and defaults ==========

/-- C6: `parseWaitTimesData` is total on object-shaped input: every ride of
every land is normalized into the returned list (no throw), and absent
optional fields get the documented defaults — a missing `wait_time` becomes
`0` and a missing `is_open` flag becomes closed (`false`). -/
theorem parseWaitTimesData_total_defaults (park now : String) (lands : List Land)
    (land : Land) (ride : Ride) (hl : land ∈ lands) (hr : ride ∈ land.rides) :
    rideToAttraction park now land.name ride ∈
      parseWaitTimesData (.obj (some lands)) park now ∧
    (ride.wait_time = none → (rideToAttraction park now land.name ride).waitTime = 0) ∧
    (ride.is_open = none → (rideToAttraction park now land.name ride).isOpen = false) := by
  refine ⟨?_, ?_, ?_⟩
  · simp only [parseWaitTimesData, List.mem_flatMap]
    exact ⟨land, hl, List.mem_map_of_mem _ hr⟩
  · intro h
    simp [rideToAttraction, h]
  · intro h
    simp [rideToAttraction, h]

/-- Witness for C6 at a concrete one-land payload whose single ride omits
every optional field. -/
theorem parseWaitTimesData_total_defaults_witness :
    rideToAttraction "magic-kingdom" "t0" "Tomorrowland"
        { id := 130, name := "Space Mountain", wait_time := none, is_open := none,
          fast_pass := none, last_updated := none } ∈
      parseWaitTimesData
        (.obj (some [{ name := "Tomorrowland",
                       rides := [{ id := 130, name := "Space Mountain",
                                   wait_time := none, is_open := none,
                                   fast_pass := none, last_updated := none }] }]))
        "magic-kingdom" "t0" ∧
    (rideToAttraction "magic-kingdom" "t0" "Tomorrowland"
        { id := 130, name := "Space Mountain", wait_time := none, is_open := none,
          fast_pass := none, last_updated := none }).waitTime = 0 ∧
    (rideToAttraction "magic-kingdom" "t0" "Tomorrowland"
        { id := 130, name := "Space Mountain", wait_time := none, is_open := none,
          fast_pass := none, last_updated := none }).isOpen = false := by
  have h := parseWaitTimesData_total_defaults "magic-kingdom" "t0"
    [{ name := "Tomorrowland",
       rides := [{ id := 130, name := "Space Mountain", wait_time := none,
                   is_open := none, fast_pass := none, last_updated := none }] }]
    { name := "Tomorrowland",
      rides := [{ id := 130, name := "Space Mountain", wait_time := none,
                  is_open := none, fast_pass := none, last_updated := none }] }
    { id := 130, name := "Space Mountain", wait_time := none, is_open := none,
      fast_pass := none, last_updated := none }
    (by decide) (by decide)
  exact ⟨h.1, h.2.1 rfl, h.2.2 rfl⟩

-- ========== C10: character scraper is total and magic-kingdom-only ==========

/-- C10: `scrapeThemeParkIQCharacters` returns an empty character list for
every park other than `'magic-kingdom'` irrespective of the network oracle
(no request is issued), and for `'magic-kingdom'` every failure — the client
throwing, a 403/429, a blocked (`'Access Denied'`) body, or any other
non-200 status — is caught and resolved to the empty list; the function
never throws (it is total on all inputs). -/
theorem scrapeThemeParkIQCharacters_total (net : Option ScrapeResp) :
    (∀ park, park ≠ "magic-kingdom" → scrapeThemeParkIQCharacters park net = []) ∧
    scrapeThemeParkIQCharacters "magic-kingdom" none = [] ∧
    (∀ r : ScrapeResp, r.status ≠ 200 →
      scrapeThemeParkIQCharacters "magic-kingdom" (some r) = []) ∧
    (∀ r : ScrapeResp, strHas r.bodyText "Access Denied" = true →
      scrapeThemeParkIQCharacters "magic-kingdom" (some r) = []) := by
  refine ⟨?_, ?_, ?_, ?_⟩
  · intro park hp
    simp [scrapeThemeParkIQCharacters, hp]
  · simp [scrapeThemeParkIQCharacters]
  · intro r hs
    by_cases h403 : r.status = 403
    · simp [scrapeThemeParkIQCharacters, h403]
    · by_cases h429 : r.status = 429
      · simp [scrapeThemeParkIQCharacters, h403, h429]
      · by_cases hden : strHas r.bodyText "Access Denied" = true
        · simp [scrapeThemeParkIQCharacters, h403, h429, hden]
        · simp [scrapeThemeParkIQCharacters, h403, h429, hden, hs]
  · intro r hden
    by_cases h403 : r.status = 403
    · simp [scrapeThemeParkIQCharacters, h403]
    · by_cases h429 : r.status = 429
      · simp [scrapeThemeParkIQCharacters, h403, h429]
      · simp [scrapeThemeParkIQCharacters, h403, h429, hden]

/-- Witness for C10: a non-magic-kingdom park and a concrete blocked
response both resolve to the empty list. -/
theorem scrapeThemeParkIQCharacters_total_witness :
    scrapeThemeParkIQCharacters "epcot"
      (some { status := 200, bodyText := "<html></html>", containers := [] }) = [] ∧
    scrapeThemeParkIQCharacters "magic-kingdom"
      (some { status := 403, bodyText := "", containers := [] }) = [] := by
  constructor
  · exact (scrapeThemeParkIQCharacters_total
      (some { status := 200, bodyText := "<html></html>", containers := [] })).1
      "epcot" (by decide)
  · exact (scrapeThemeParkIQCharacters_total
      (some { status := 403, bodyText := "", containers := [] })).2.2.1
      { status := 403, bodyText := "", containers := [] } (by decide)

-- ========== C1: wait-times acquisition with fallback ==========

/-- C1 counterexample: (a) with every upstream failing for
`"magic-kingdom"`, the breaker's fallback Result carries no `freshnessScore`
member at all (modelled `none`), not `0`; (b) when the first source answers
200 with an object whose `lands` array is empty, the acquisition returns a
Result whose attraction list is empty, refuting "always returns a non-empty
attraction list". -/
theorem waitTimesAcquire_claim_counterexample :
    (waitTimesAcquire false (fun _ _ => none) "magic-kingdom" "t0"
        initialDataState).1.freshnessScore ≠ some 0 ∧
    (waitTimesAcquire false (fun _ _ => some { status := 200, data := .obj (some []) })
        "magic-kingdom" "t0" initialDataState).1.attractions = [] := by
  refine ⟨by decide, by decide⟩

/-- C1 (amended): the acquisition (`waitTimesBreaker.fire` plus its
registered fallback) is total — it never throws; when the breaker is open, or
when the wrapped call fails (every upstream source exhausted), it resolves to
`getFallbackWaitTimes`, whose Result has `source = "fallback"`, a non-empty
attraction list for each of the four supported parks, and no `freshnessScore`
field.  (When a source succeeds, the attraction list is whatever the
normalizer produced and may be empty.) -/
theorem waitTimesAcquire_fallback_total (net : Nat → Nat → Option HttpResp)
    (park now : String) (st : DataState) (hpark : park ∈ validParks) :
    waitTimesAcquire true net park now st = (getFallbackWaitTimes park now, st) ∧
    (∀ e st', waitTimesWrapped net park now st = (.error e, st') →
      waitTimesAcquire false net park now st = (getFallbackWaitTimes park now, st')) ∧
    (getFallbackWaitTimes park now).source = "fallback" ∧
    (getFallbackWaitTimes park now).attractions ≠ [] ∧
    (getFallbackWaitTimes park now).freshnessScore = none := by
  refine ⟨?_, ?_, rfl, ?_, rfl⟩
  · simp [waitTimesAcquire]
  · intro e st' h
    simp [waitTimesAcquire, h]
  · simp only [validParks, List.mem_cons, List.not_mem_nil, or_false] at hpark
    rcases hpark with rfl | rfl | rfl | rfl <;>
      · simp only [getFallbackWaitTimes]
        decide

/-- Witness for C1's amended theorem: all upstreams failing for
`"magic-kingdom"` yields the fallback Result with untouched state. -/
theorem waitTimesAcquire_fallback_total_witness :
    waitTimesAcquire false (fun _ _ => none) "magic-kingdom" "t0" initialDataState =
      (getFallbackWaitTimes "magic-kingdom" "t0",
       { initialDataState with errorCountsWaitTimes := 2 }) ∧
    (getFallbackWaitTimes "magic-kingdom" "t0").attractions ≠ [] := by
  have h := waitTimesAcquire_fallback_total (fun _ _ => none) "magic-kingdom" "t0"
    initialDataState (by decide)
  refine ⟨h.2.1 "All wait time sources failed"
    { initialDataState with errorCountsWaitTimes := 2 } rfl, h.2.2.2.1⟩

-- ========== C2: breaker wrapped operation ==========

/-- The breaker's source list is already in ascending priority order, so the
sort is the identity on it. -/
lemma waitTimesSources_sorted (park : String) :
    sortByPriority (waitTimesSources park) = waitTimesSources park := by
  simp [sortByPriority, waitTimesSources, insertByPriority]

/-- C2: the wrapped wait-times operation tries the registered sources in
ascending priority order (queue-times, priority 1, before touringplans,
priority 2), each through `fetchWithRetry` with a one-retry budget (success
iff one of the two attempts at that source succeeds); the first succeeding
source short-circuits — the Result (with `freshnessScore: 100`) is computed
from that source's response alone, no later source consulted — and the
wrapped call throws exactly when both sources have failed. -/
theorem waitTimesWrapped_priority_shortcircuit (net : Nat → Nat → Option HttpResp)
    (park now : String) (st : DataState) :
    ((sortByPriority (waitTimesSources park)).map (fun s => s.priority) = [1, 2]) ∧
    (∀ i, (fetchWithRetry (net i) 0 1).isOk =
      ((attemptResult (net i 0)).isOk || (attemptResult (net i 1)).isOk)) ∧
    (∀ r, fetchWithRetry (net 0) 0 1 = .ok r →
      waitTimesWrapped net park now st =
        (.ok { park := park
               attractions := parseWaitTimesData r.data park now
               source := getSourceName ("https://queue-times.com/parks/" ++
                 toString (getParkId park) ++ "/queue_times.json")
               lastUpdated := now
               freshnessScore := some 100 },
         { st with lastSuccessfulFetchWaitTimes := some now, errorCountsWaitTimes := 0 })) ∧
    (((waitTimesWrapped net park now st).1.isOk = false) ↔
      ((fetchWithRetry (net 0) 0 1).isOk = false ∧
       (fetchWithRetry (net 1) 0 1).isOk = false)) := by
  refine ⟨?_, ?_, ?_, ?_⟩
  · rw [waitTimesSources_sorted]
    rfl
  · intro i
    rcases h0 : attemptResult (net i 0) with e0 | r0 <;>
      rcases h1 : attemptResult (net i 1) with e1 | r1 <;>
        simp [fetchWithRetry, h0, h1, Except.isOk, Except.toBool]
  · intro r h
    simp [waitTimesWrapped, waitTimesSources_sorted, waitTimesSources,
      tryWaitTimesSources, h]
  · rcases h0 : fetchWithRetry (net 0) 0 1 with e0 | r0 <;>
      rcases h1 : fetchWithRetry (net 1) 0 1 with e1 | r1 <;>
        simp [waitTimesWrapped, waitTimesSources_sorted, waitTimesSources,
          tryWaitTimesSources, h0, h1, Except.isOk, Except.toBool]

/-- Witness for C2: with the first source answering 200 (empty `lands`), the
wrapped call returns that source's normalized Result immediately. -/
theorem waitTimesWrapped_priority_shortcircuit_witness :
    waitTimesWrapped (fun _ _ => some { status := 200, data := .obj (some []) })
        "magic-kingdom" "t0" initialDataState =
      (.ok { park := "magic-kingdom"
             attractions := parseWaitTimesData (.obj (some [])) "magic-kingdom" "t0"
             source := getSourceName ("https://queue-times.com/parks/" ++
               toString (getParkId "magic-kingdom") ++ "/queue_times.json")
             lastUpdated := "t0"
             freshnessScore := some 100 },
       { initialDataState with lastSuccessfulFetchWaitTimes := some "t0",
                               errorCountsWaitTimes := 0 }) :=
  (waitTimesWrapped_priority_shortcircuit
    (fun _ _ => some { status := 200, data := .obj (some []) })
    "magic-kingdom" "t0" initialDataState).2.2.1
    { status := 200, data := .obj (some []) } rfl

-- ========== C3: DataState mutation per fetch attempt ==========

/-- C3 counterexample: a failed park-hours fetch (live source yields `null`)
leaves `errorCounts.parkHours` untouched — here it stays `5` instead of being
incremented to `6` — refuting "a failed fetch increments that domain's error
counter" for the park-hours domain. -/
theorem parkHours_errorCount_counterexample :
    (parkHoursRoute none "magic-kingdom" "t0" []
        { initialDataState with errorCountsParkHours := 5 }).2.2.errorCountsParkHours
      ≠ 5 + 1 := by
  decide

/-- C3 (amended): only the wait-times domain implements the full DataState
contract: a successful wrapped call sets the wait-times timestamp and zeroes
its error counter, while exhaustion of the sources leaves the timestamp
unchanged and bumps the counter once per failed source (twice in total); the
park-hours handler only sets its timestamp on a live success — its error
counter is never modified on success or failure — and the entertainment
handler always sets its timestamp and never touches its error counter. -/
theorem dataState_mutation (net : Nat → Nat → Option HttpResp)
    (dnet : Option (List DayRaw)) (snet : Option ScrapeResp) (park now : String)
    (st : DataState) (hcache : List (String × HoursResult))
    (ecache : List (String × EntResult)) :
    ((waitTimesWrapped net park now st).1.isOk = true →
      ((waitTimesWrapped net park now st).2.lastSuccessfulFetchWaitTimes = some now ∧
       (waitTimesWrapped net park now st).2.errorCountsWaitTimes = 0)) ∧
    ((waitTimesWrapped net park now st).1.isOk = false →
      ((waitTimesWrapped net park now st).2.lastSuccessfulFetchWaitTimes =
          st.lastSuccessfulFetchWaitTimes ∧
       (waitTimesWrapped net park now st).2.errorCountsWaitTimes =
          st.errorCountsWaitTimes + 2)) ∧
    (∀ hrs, cacheGet hcache ("park_hours_" ++ park) = none →
      fetchLiveParkHours dnet park now = some hrs →
      (parkHoursRoute dnet park now hcache st).2.2 =
        { st with lastSuccessfulFetchParkHours := some now }) ∧
    (cacheGet hcache ("park_hours_" ++ park) = none →
      fetchLiveParkHours dnet park now = none →
      (parkHoursRoute dnet park now hcache st).2.2 = st) ∧
    (cacheGet ecache ("entertainment_" ++ park) = none →
      (entertainmentRoute snet park now ecache st).2.2 =
        { st with lastSuccessfulFetchEntertainment := some now }) := by
  refine ⟨?_, ?_, ?_, ?_, ?_⟩
  · intro h
    rcases h0 : fetchWithRetry (net 0) 0 1 with e0 | r0 <;>
      rcases h1 : fetchWithRetry (net 1) 0 1 with e1 | r1 <;>
        simp [waitTimesWrapped, waitTimesSources_sorted, waitTimesSources,
          tryWaitTimesSources, h0, h1, Except.isOk, Except.toBool] at h ⊢
  · intro h
    rcases h0 : fetchWithRetry (net 0) 0 1 with e0 | r0 <;>
      rcases h1 : fetchWithRetry (net 1) 0 1 with e1 | r1 <;>
        simp [waitTimesWrapped, waitTimesSources_sorted, waitTimesSources,
          tryWaitTimesSources, h0, h1, Except.isOk, Except.toBool] at h ⊢
  · intro hrs hmiss hlive
    simp [parkHoursRoute, hmiss, hlive]
  · intro hmiss hlive
    simp [parkHoursRoute, hmiss, hlive]
  · intro hmiss
    simp [entertainmentRoute, hmiss]

/-- Witness for C3's amended theorem: concrete all-fail wait-times call plus
concrete park-hours and entertainment calls on empty caches. -/
theorem dataState_mutation_witness :
    ((waitTimesWrapped (fun _ _ => none) "magic-kingdom" "t0"
        initialDataState).2.lastSuccessfulFetchWaitTimes =
          initialDataState.lastSuccessfulFetchWaitTimes ∧
     (waitTimesWrapped (fun _ _ => none) "magic-kingdom" "t0"
        initialDataState).2.errorCountsWaitTimes =
          initialDataState.errorCountsWaitTimes + 2) ∧
    (parkHoursRoute none "magic-kingdom" "t0" [] initialDataState).2.2 =
      initialDataState ∧
    (entertainmentRoute none "magic-kingdom" "t0" [] initialDataState).2.2 =
      { initialDataState with lastSuccessfulFetchEntertainment := some "t0" } := by
  have h := dataState_mutation (fun _ _ => none) none none "magic-kingdom" "t0"
    initialDataState [] []
  exact ⟨h.2.1 (by decide), h.2.2.2.1 rfl rfl, h.2.2.2.2 rfl⟩

-- ========== C9: idempotence under caching ==========

/-- Lemma: `cache.set` followed by `cache.get` on the same key yields the stored
value. -/
lemma cacheGet_cacheSet {α : Type} (c : List (String × α)) (k : String) (v : α) :
    cacheGet (cacheSet c k v) k = some v := by
  simp [cacheGet, cacheSet, List.lookup]

/-- C9 counterexample: a park-hours request whose live fetch fails returns
the static fallback **without writing a cache entry**, so a second request
inside the cache window re-acquires; if the upstream has recovered, the
second response's data differs from the first and is not served from cache —
refuting the claim for the park-hours domain. -/
theorem parkHours_idempotence_counterexample :
    ((parkHoursRoute
        (some [{ date := "2026-01-01", opening_time := "08:00",
                 closing_time := "22:00", dayType := none, special := false }])
        "magic-kingdom" "t1"
        (parkHoursRoute none "magic-kingdom" "t0" [] initialDataState).2.1
        (parkHoursRoute none "magic-kingdom" "t0" [] initialDataState).2.2).1.payload ≠
      (parkHoursRoute none "magic-kingdom" "t0" [] initialDataState).1.payload) ∧
    (parkHoursRoute
        (some [{ date := "2026-01-01", opening_time := "08:00",
                 closing_time := "22:00", dayType := none, special := false }])
        "magic-kingdom" "t1"
        (parkHoursRoute none "magic-kingdom" "t0" [] initialDataState).2.1
        (parkHoursRoute none "magic-kingdom" "t0" [] initialDataState).2.2).1.fromCache
      = false := by
  refine ⟨by decide, by decide⟩

/-- C9 (amended): within a domain's cache window with no intervening flush,
a second call returns data identical to the first call's, served from the
cache entry the first call wrote, with only the cache indicator differing —
unconditionally for the wait-times and entertainment domains (their handlers
always cache the produced Result), and for park hours provided the first
call's live fetch succeeded; a park-hours call that fell back to static
hours writes no cache entry, so the next call re-acquires and may differ. -/
theorem cache_idempotence (b1 b2 : Bool) (net1 net2 : Nat → Nat → Option HttpResp)
    (dnet1 : Option (List DayRaw)) (snet1 snet2 : Option ScrapeResp)
    (park now1 now2 : String) (wcache : List (String × WTResult))
    (hcache : List (String × HoursResult)) (ecache : List (String × EntResult))
    (st1 st2 : DataState) :
    (cacheGet wcache ("wait_times_" ++ park) = none →
      ((waitTimesRoute b2 net2 park now2
          (waitTimesRoute b1 net1 park now1 wcache st1).2.1 st2).1.payload =
        (waitTimesRoute b1 net1 park now1 wcache st1).1.payload ∧
       (waitTimesRoute b2 net2 park now2
          (waitTimesRoute b1 net1 park now1 wcache st1).2.1 st2).1.fromCache = true)) ∧
    (cacheGet ecache ("entertainment_" ++ park) = none →
      ((entertainmentRoute snet2 park now2
          (entertainmentRoute snet1 park now1 ecache st1).2.1 st2).1.payload =
        (entertainmentRoute snet1 park now1 ecache st1).1.payload ∧
       (entertainmentRoute snet2 park now2
          (entertainmentRoute snet1 park now1 ecache st1).2.1 st2).1.fromCache = true)) ∧
    (∀ hrs, cacheGet hcache ("park_hours_" ++ park) = none →
      fetchLiveParkHours dnet1 park now1 = some hrs →
      (∀ dnet2, (parkHoursRoute dnet2 park now2
          (parkHoursRoute dnet1 park now1 hcache st1).2.1 st2).1.payload =
        (parkHoursRoute dnet1 park now1 hcache st1).1.payload ∧
       (parkHoursRoute dnet2 park now2
          (parkHoursRoute dnet1 park now1 hcache st1).2.1 st2).1.fromCache = true)) := by
  refine ⟨?_, ?_, ?_⟩
  · intro hmiss
    simp [waitTimesRoute, hmiss, cacheGet_cacheSet]
  · intro hmiss
    simp [entertainmentRoute, hmiss, cacheGet_cacheSet]
  · intro hrs hmiss hlive dnet2
    simp [parkHoursRoute, hmiss, hlive, cacheGet_cacheSet]

/-- Witness for C9's amended theorem: concrete second calls served from the
entry written by concrete first calls. -/
theorem cache_idempotence_witness :
    ((waitTimesRoute false (fun _ _ => none) "epcot" "t2"
        (waitTimesRoute false (fun _ _ => none) "epcot" "t1" []
          initialDataState).2.1 initialDataState).1.payload =
      (waitTimesRoute false (fun _ _ => none) "epcot" "t1" []
        initialDataState).1.payload) ∧
    ((entertainmentRoute none "epcot" "t2"
        (entertainmentRoute none "epcot" "t1" [] initialDataState).2.1
        initialDataState).1.fromCache = true) := by
  have h := cache_idempotence false false (fun _ _ => none) (fun _ _ => none)
    none none none "epcot" "t1" "t2" [] [] [] initialDataState initialDataState
  exact ⟨(h.1 rfl).1, (h.2.1 rfl).2⟩

-- ========== C7: aggregator deduplication (last write wins) ==========

/-- Replacing the entries keyed `e.id` does not change the ids. -/
lemma map_ids_replace (t : List EntItem) (e : EntItem) :
    ((t.map (fun a => if a.id == e.id then e else a)).map (fun a => a.id)) =
      t.map (fun a => a.id) := by
  rw [List.map_map]
  apply List.map_congr_left
  intro a _
  by_cases h : a.id = e.id
  · simp [Function.comp, h]
  · simp [Function.comp, h]

/-- Lemma: `insertEntry` preserves distinctness of the stored ids. -/
lemma insertEntry_ids_nodup (acc : List EntItem) (e : EntItem)
    (h : (acc.map (fun a => a.id)).Nodup) :
    ((insertEntry acc e).map (fun a => a.id)).Nodup := by
  unfold insertEntry
  split
  · rw [map_ids_replace]
    exact h
  · rename_i hany
    rw [List.map_append, List.nodup_append]
    refine ⟨h, List.nodup_singleton _, ?_⟩
    intro y hy hy2
    simp only [List.map_cons, List.map_nil, List.mem_singleton] at hy2
    subst hy2
    obtain ⟨a, ha, hae⟩ := List.mem_map.mp hy
    exact hany (List.any_eq_true.mpr ⟨a, ha, beq_iff_eq.mpr hae⟩)

/-- The accumulator of the Map construction always has pairwise-distinct
ids. -/
lemma dedup_fold_nodupIds (l : List EntItem) :
    ∀ acc : List EntItem, (acc.map (fun a => a.id)).Nodup →
      ((l.foldl insertEntry acc).map (fun a => a.id)).Nodup := by
  induction l with
  | nil => intro acc h; exact h
  | cons a l ih =>
    intro acc h
    exact ih (insertEntry acc a) (insertEntry_ids_nodup acc a h)

/-- The ids stored by `dedupById` are pairwise distinct (exactly one record
per identifier). -/
lemma dedupById_nodupIds (l : List EntItem) :
    ((dedupById l).map (fun a => a.id)).Nodup :=
  dedup_fold_nodupIds l [] (by simp)

/-- After a replacement, no entry keyed `e.id` other than `e` survives. -/
lemma filter_map_replace_none (t : List EntItem) (e : EntItem) (x : String)
    (hx : ∀ a ∈ t, a.id ≠ e.id) (hex : e.id = x) :
    (t.map (fun a => if a.id == e.id then e else a)).filter
      (fun a => a.id == x) = [] := by
  induction t with
  | nil => rfl
  | cons b t ih =>
    have hb : b.id ≠ e.id := hx b (List.mem_cons_self b t)
    have hbeq : (b.id == e.id) = false := beq_eq_false_iff_ne.mpr hb
    have hbx : (b.id == x) = false := beq_eq_false_iff_ne.mpr (hex ▸ hb)
    rw [List.map_cons, if_neg (by simp [hbeq] : ¬ (b.id == e.id) = true),
      List.filter_cons, if_neg (by simp [hbx] : ¬ (b.id == x) = true)]
    exact ih (fun a ha => hx a (List.mem_cons_of_mem _ ha))

/-- If an entry keyed `e.id` is present in a distinct-id accumulator, the
replacement leaves exactly the new record under that key. -/
lemma filter_map_replace_present (acc : List EntItem) (e : EntItem) (x : String)
    (hnd : (acc.map (fun a => a.id)).Nodup)
    (hany : acc.any (fun a => a.id == e.id) = true) (hex : e.id = x) :
    (acc.map (fun a => if a.id == e.id then e else a)).filter
      (fun a => a.id == x) = [e] := by
  induction acc with
  | nil => simp at hany
  | cons b t ih =>
    rw [List.map_cons, List.nodup_cons] at hnd
    obtain ⟨hb_notin, hnd_t⟩ := hnd
    cases hb : b.id == e.id
    · have hbne : b.id ≠ e.id := beq_eq_false_iff_ne.mp hb
      have hbx : (b.id == x) = false := beq_eq_false_iff_ne.mpr (hex ▸ hbne)
      have hany_t : t.any (fun a => a.id == e.id) = true := by
        simpa [List.any_cons, hb] using hany
      rw [List.map_cons, if_neg (by simp [hb] : ¬ (b.id == e.id) = true),
        List.filter_cons, if_neg (by simp [hbx] : ¬ (b.id == x) = true)]
      exact ih hnd_t hany_t
    · have hbe : b.id = e.id := beq_iff_eq.mp hb
      have hrest : ∀ a ∈ t, a.id ≠ e.id := by
        intro a ha hae
        exact hb_notin (by rw [hbe, ← hae]; exact List.mem_map_of_mem _ ha)
      have hexx : (e.id == x) = true := beq_iff_eq.mpr hex
      rw [List.map_cons, if_pos hb, List.filter_cons, if_pos hexx,
        filter_map_replace_none t e x hrest hex]

/-- No entry with the queried id: the filtered view is empty. -/
lemma filter_eq_nil_of_any_false (acc : List EntItem) (i : String)
    (h : acc.any (fun a => a.id == i) = false) :
    acc.filter (fun a => a.id == i) = [] := by
  induction acc with
  | nil => rfl
  | cons b t ih =>
    simp only [List.any_cons, Bool.or_eq_false_iff] at h
    rw [List.filter_cons]
    simp [h.1, ih h.2]

/-- Inserting a record whose id equals the queried one leaves exactly that
record under the key (given distinct stored ids). -/
lemma filter_insertEntry_eq (acc : List EntItem) (e : EntItem) (x : String)
    (hnd : (acc.map (fun a => a.id)).Nodup) (hex : e.id = x) :
    (insertEntry acc e).filter (fun a => a.id == x) = [e] := by
  unfold insertEntry
  split
  · rename_i hany
    exact filter_map_replace_present acc e x hnd hany hex
  · rename_i hany
    have hany' : acc.any (fun a => a.id == e.id) = false :=
      Bool.not_eq_true _ ▸ eq_false_of_ne_true hany
    rw [List.filter_append, filter_eq_nil_of_any_false acc x (hex ▸ hany')]
    simp [beq_iff_eq.mpr hex]

/-- Inserting a record with a different id does not change the filtered
view. -/
lemma filter_map_replace_ne (t : List EntItem) (e : EntItem) (x : String)
    (hne : e.id ≠ x) :
    (t.map (fun a => if a.id == e.id then e else a)).filter (fun a => a.id == x)
      = t.filter (fun a => a.id == x) := by
  induction t with
  | nil => rfl
  | cons b t ih =>
    cases hb : b.id == e.id
    · rw [List.map_cons, if_neg (by simp [hb] : ¬ (b.id == e.id) = true),
        List.filter_cons, List.filter_cons]
      cases hbx : b.id == x
      · rw [if_neg (by decide : ¬ false = true), if_neg (by decide : ¬ false = true)]
        exact ih
      · rw [if_pos (by decide : true = true), if_pos (by decide : true = true), ih]
    · have hbe : b.id = e.id := beq_iff_eq.mp hb
      have h1 : (e.id == x) = false := beq_eq_false_iff_ne.mpr hne
      have h2 : (b.id == x) = false := beq_eq_false_iff_ne.mpr (hbe ▸ hne)
      rw [List.map_cons, if_pos hb, List.filter_cons, List.filter_cons,
        if_neg (by simp [h1] : ¬ (e.id == x) = true),
        if_neg (by simp [h2] : ¬ (b.id == x) = true), ih]

/-- Lemma: `insertEntry` with a record of a different id leaves the filtered view
unchanged. -/
lemma filter_insertEntry_ne (acc : List EntItem) (e : EntItem) (x : String)
    (hne : e.id ≠ x) :
    (insertEntry acc e).filter (fun a => a.id == x) =
      acc.filter (fun a => a.id == x) := by
  unfold insertEntry
  split
  · exact filter_map_replace_ne acc e x hne
  · rw [List.filter_append]
    simp [beq_eq_false_iff_ne.mpr hne]

/-- Last write wins: the record stored by `dedupById` under a key is the last
occurrence of that key in the input. -/
lemma dedupById_filter_last (l : List EntItem) (x : String) (e : EntItem)
    (h : l.reverse.find? (fun a => a.id == x) = some e) :
    (dedupById l).filter (fun a => a.id == x) = [e] := by
  induction l using List.reverseRecOn with
  | nil => simp at h
  | append_singleton l a ih =>
    rw [List.reverse_append] at h
    simp only [List.reverse_cons, List.reverse_nil, List.nil_append,
      List.singleton_append] at h
    have hfold : dedupById (l ++ [a]) = insertEntry (dedupById l) a := by
      simp [dedupById, List.foldl_append]
    cases ha : a.id == x
    · have h' : l.reverse.find? (fun a => a.id == x) = some e := by
        rw [List.find?_cons] at h
        simpa [ha] using h
      rw [hfold, filter_insertEntry_ne _ _ _ (beq_eq_false_iff_ne.mp ha)]
      exact ih h'
    · have hea : e = a := by
        rw [List.find?_cons] at h
        simp [ha] at h
        exact h.symm
      subst hea
      rw [hfold]
      exact filter_insertEntry_eq _ _ _ (dedupById_nodupIds l) (beq_iff_eq.mp ha)

/-- C7: for any two concatenated source lists that both contain a record with
the same identifier, the deduplicated merge contains exactly one record with
that identifier, and that record is the later-listed source's last record with
that identifier (last write wins by concatenation order). -/
theorem entertainment_dedup_last_write_wins (l1 l2 : List EntItem) (x : String)
    (e1 e2 : EntItem) (h1 : e1 ∈ l1) (hid1 : e1.id = x)
    (h2 : l2.reverse.find? (fun a => a.id == x) = some e2) :
    (dedupById (l1 ++ l2)).filter (fun a => a.id == x) = [e2] := by
  apply dedupById_filter_last
  rw [List.reverse_append, List.find?_append, h2]
  rfl

/-- Witness for C7 at the claim's concrete example: two one-record lists with
id `"happily_ever_after"` and differing `times`; the merge keeps exactly the
later record. -/
theorem entertainment_dedup_last_write_wins_witness :
    (dedupById
        ([{ id := "happily_ever_after", name := "Happily Ever After",
            type := "fireworks", times := ["9:00 PM"],
            location := "Central Plaza", characters := [],
            duration := some 18, source := some "static" }] ++
         [{ id := "happily_ever_after", name := "Happily Ever After",
            type := "fireworks", times := ["9:30 PM"],
            location := "Central Plaza", characters := [],
            duration := some 18, source := some "live" }])).filter
      (fun a => a.id == "happily_ever_after") =
    [{ id := "happily_ever_after", name := "Happily Ever After",
       type := "fireworks", times := ["9:30 PM"],
       location := "Central Plaza", characters := [],
       duration := some 18, source := some "live" }] := by
  apply entertainment_dedup_last_write_wins _ _ _
    { id := "happily_ever_after", name := "Happily Ever After",
      type := "fireworks", times := ["9:00 PM"],
      location := "Central Plaza", characters := [],
      duration := some 18, source := some "static" } _
    (List.mem_singleton.mpr rfl) rfl
  decide
